import Mathlib

/-
Verification of the AK8963 compass driver (SPI-passthrough path) and the
VTX 5.8 GHz frequency table, embedded shallowly from the C sources
`src/main/drivers/compass/compass_ak8963.c` and the VTX string table file.

Machine integers are modelled as `Nat`/`Int` with explicit reductions
modulo 2^8 / 2^16 / 2^32 where the C code relies on fixed-width behaviour.
The per-axis gains are C `float`s in the source; they are modelled as `ℚ`.
For the byte-range inputs that occur (trim bytes 0..255, raw 16-bit
samples, products that fit in `int16_t`), every float operation performed
by the source is exact in single precision, so the rational model agrees
with the float computation on all inputs for which the C assignment to
`int16_t` is defined.  Bus transactions are not executed: each operation
returns the list of transport commands it would issue, and the bytes a
buffer read yields are an oracle input.
-/

/-- Registers of the MPU proxy chip touched by this driver.  Their numeric
addresses live in a header that is not part of this repository, so they are
kept symbolic. -/
inductive MpuReg where
  | slv0Addr
  | slv0Reg
  | slv0Ctrl
  | slv0DO
  | extSensData
deriving DecidableEq

/-- Transport commands the driver can issue, at the granularity of the
primitives used by the source (`spiBusWriteRegister` wrapped with a 10 us
delay, millisecond/microsecond delays, `spiBusReadRegisterBuffer`). -/
inductive Cmd where
  | spiWrite (reg : MpuReg) (data : ℕ)
  | delayUs (t : ℕ)
  | delayMs (t : ℕ)
  | bufRead (reg : MpuReg) (len : ℕ)
deriving DecidableEq

def AK8963_MAG_I2C_ADDRESS : ℕ := 0x0C
def AK8963_MAG_REG_WHO_AM_I : ℕ := 0x00
def AK8963_MAG_REG_STATUS1 : ℕ := 0x02
def AK8963_MAG_REG_HXL : ℕ := 0x03
def AK8963_MAG_REG_STATUS2 : ℕ := 0x09
def AK8963_MAG_REG_CNTL1 : ℕ := 0x0a
def AK8963_MAG_REG_CNTL2 : ℕ := 0x0b
def AK8963_MAG_REG_ASAX : ℕ := 0x10
def READ_FLAG : ℕ := 0x80
def STATUS1_DATA_READY : ℕ := 0x01
def STATUS2_DATA_ERROR : ℕ := 0x02
def STATUS2_MAG_SENSOR_OVERFLOW : ℕ := 0x03
def CNTL1_MODE_POWER_DOWN : ℕ := 0x00
def CNTL1_MODE_ONCE : ℕ := 0x01
def CNTL1_MODE_FUSE_ROM : ℕ := 0x0F

/-- Value of a byte reinterpreted as C `int8_t`. -/
def toInt8 (n : ℕ) : ℤ :=
  if n % 256 < 128 then ((n % 256 : ℕ) : ℤ) else ((n % 256 : ℕ) : ℤ) - 256

/-- Value of a 16-bit word reinterpreted as C `int16_t`. -/
def toInt16 (n : ℕ) : ℤ :=
  if n % 65536 < 32768 then ((n % 65536 : ℕ) : ℤ) else ((n % 65536 : ℕ) : ℤ) - 65536

/-- Value of a 32-bit word reinterpreted as C `int32_t`. -/
def toInt32 (n : ℕ) : ℤ :=
  if n % 4294967296 < 2147483648 then ((n % 4294967296 : ℕ) : ℤ)
  else ((n % 4294967296 : ℕ) : ℤ) - 4294967296

/-- Wrapping `uint32_t` subtraction `x - y`. -/
def u32sub (x y : ℕ) : ℕ :=
  (x % 4294967296 + (4294967296 - y % 4294967296)) % 4294967296

/-- Truncation of a rational toward zero, as a C float-to-integer cast. -/
def truncTowardZero (q : ℚ) : ℤ :=
  if q < 0 then -(Int.floor (-q)) else Int.floor q

/-- State of the queued-read tracker (`queuedReadState_t`). -/
structure QueuedRead where
  waiting : Bool
  len : ℕ
  readStartedAt : ℕ
deriving DecidableEq

/-- Result of `ak8963SensorStartRead`: the returned flag, the updated
tracker, and the transport commands issued. -/
structure StartReadResult where
  ok : Bool
  q : QueuedRead
  cmds : List Cmd
deriving DecidableEq

/-- Embeds `spiWriteRegisterDelay`: one register write followed by a fixed
10 microsecond delay; the C function always returns true. -/
def spiWriteRegisterDelay (reg : MpuReg) (data : ℕ) : List Cmd :=
  [Cmd.spiWrite reg data, Cmd.delayUs 10]

/-- Embeds `ak8963SensorStartRead` (SPI-passthrough variant).  `now` is the
value `micros()` returns during the call. -/
def ak8963SensorStartRead (q : QueuedRead) (now : ℕ) (addr reg len : ℕ) :
    StartReadResult :=
  if q.waiting then
    ⟨false, q, []⟩
  else
    ⟨true,
     { waiting := true, len := len, readStartedAt := now % 4294967296 },
     spiWriteRegisterDelay .slv0Addr (addr ||| READ_FLAG) ++
       spiWriteRegisterDelay .slv0Reg reg ++
       spiWriteRegisterDelay .slv0Ctrl (len ||| 0x80)⟩

/-- Embeds `ak8963SensorQueuedReadTimeRemaining`.  The `uint32_t` clock
subtraction and the `int32_t` reinterpretation of the elapsed time follow
the source exactly. -/
def ak8963SensorQueuedReadTimeRemaining (q : QueuedRead) (now : ℕ) : ℕ :=
  if q.waiting = false then 0
  else
    let timeSinceStarted : ℤ := toInt32 (u32sub now q.readStartedAt)
    let timeRemaining : ℤ := 8000 - timeSinceStarted
    if timeRemaining < 0 then 0 else timeRemaining.toNat

/-- Result of `ak8963SensorCompleteRead`: the returned flag, the updated
tracker, the bytes delivered to the caller, and the commands issued
(including the blocking delay, if any). -/
structure CompleteReadResult where
  ok : Bool
  q : QueuedRead
  buf : List ℕ
  cmds : List Cmd
deriving DecidableEq

/-- Embeds `ak8963SensorCompleteRead`.  `busBytes` are the bytes the
transport buffer read yields and `busAck` its acknowledgment; the source
discards that acknowledgment and always returns true. -/
def ak8963SensorCompleteRead (q : QueuedRead) (now : ℕ) (busBytes : List ℕ)
    (_busAck : Bool) : CompleteReadResult :=
  let timeRemaining := ak8963SensorQueuedReadTimeRemaining q now
  let delayCmds : List Cmd :=
    if 0 < timeRemaining then [Cmd.delayUs timeRemaining] else []
  ⟨true, { q with waiting := false }, busBytes.take q.len,
   delayCmds ++ [Cmd.bufRead .extSensData q.len]⟩

/-- Result of `ak8963SensorWrite` (SPI-passthrough variant). -/
structure WriteResult where
  ok : Bool
  cmds : List Cmd
deriving DecidableEq

/-- Embeds `ak8963SensorWrite` (SPI-passthrough variant): four proxy
register writes; always returns true. -/
def ak8963SensorWrite (addr reg data : ℕ) : WriteResult :=
  ⟨true,
   spiWriteRegisterDelay .slv0Addr addr ++
     spiWriteRegisterDelay .slv0Reg reg ++
     spiWriteRegisterDelay .slv0DO data ++
     spiWriteRegisterDelay .slv0Ctrl 0x81⟩

/-- Result of the blocking `ak8963SensorRead` (SPI-passthrough variant). -/
structure SensorReadResult where
  ok : Bool
  buf : List ℕ
  cmds : List Cmd
deriving DecidableEq

/-- Embeds the blocking `ak8963SensorRead` (SPI-passthrough variant): arm
the proxy, wait 4 ms, fetch the shadow buffer.  The returned flag is the
buffer read's acknowledgment. -/
def ak8963SensorRead (addr reg len : ℕ) (busBytes : List ℕ) (busAck : Bool) :
    SensorReadResult :=
  ⟨busAck, busBytes.take len,
   spiWriteRegisterDelay .slv0Addr (addr ||| READ_FLAG) ++
     spiWriteRegisterDelay .slv0Reg reg ++
     spiWriteRegisterDelay .slv0Ctrl (len ||| 0x80) ++
     [Cmd.delayMs 4, Cmd.bufRead .extSensData len]⟩

/-- Three per-axis values (X, Y, Z order of `common/axis.h`). -/
structure Triple (α : Type) where
  x : α
  y : α
  z : α
deriving DecidableEq

/-- The per-axis gain formula of `ak8963Init`:
`(((float)(int8_t)trim - 128) / 256 + 1) * 30`, exact in `ℚ`. -/
def ak8963GainOfTrim (trim : ℕ) : ℚ :=
  (((toInt8 trim : ℚ) - 128) / 256 + 1) * 30

/-- Result of `ak8963Init`: the returned flag, the computed gains, and the
transport commands issued. -/
structure InitResult where
  ok : Bool
  magGain : Triple ℚ
  cmds : List Cmd
deriving DecidableEq

/-- Embeds `ak8963Init` (SPI-passthrough variant).  `calBytes`, `st1Bytes`,
`st2Bytes` are the bytes the three sensor reads yield and `calAck`,
`st1Ack`, `st2Ack` their acknowledgments; the source discards every
transport result and returns true unconditionally. -/
def ak8963Init (calBytes st1Bytes st2Bytes : List ℕ)
    (calAck st1Ack st2Ack : Bool) : InitResult :=
  let w1 := ak8963SensorWrite AK8963_MAG_I2C_ADDRESS AK8963_MAG_REG_CNTL1
    CNTL1_MODE_POWER_DOWN
  let w2 := ak8963SensorWrite AK8963_MAG_I2C_ADDRESS AK8963_MAG_REG_CNTL1
    CNTL1_MODE_FUSE_ROM
  let r1 := ak8963SensorRead AK8963_MAG_I2C_ADDRESS AK8963_MAG_REG_ASAX 3
    calBytes calAck
  let calibration := r1.buf
  let magGain : Triple ℚ :=
    ⟨ak8963GainOfTrim (calibration.getD 0 0),
     ak8963GainOfTrim (calibration.getD 1 0),
     ak8963GainOfTrim (calibration.getD 2 0)⟩
  let w3 := ak8963SensorWrite AK8963_MAG_I2C_ADDRESS AK8963_MAG_REG_CNTL1
    CNTL1_MODE_POWER_DOWN
  let r2 := ak8963SensorRead AK8963_MAG_I2C_ADDRESS AK8963_MAG_REG_STATUS1 1
    st1Bytes st1Ack
  let r3 := ak8963SensorRead AK8963_MAG_I2C_ADDRESS AK8963_MAG_REG_STATUS2 1
    st2Bytes st2Ack
  let w4 := ak8963SensorWrite AK8963_MAG_I2C_ADDRESS AK8963_MAG_REG_CNTL1
    CNTL1_MODE_ONCE
  ⟨true, magGain,
   w1.cmds ++ w2.cmds ++ r1.cmds ++ w3.cmds ++ r2.cmds ++ r3.cmds ++ w4.cmds⟩

/-- The acquisition states of `ak8963ReadState_e`. -/
inductive AkState where
  | checkStatus
  | waitingForStatus
  | waitingForData
deriving DecidableEq

/-- Driver-owned mutable state: the acquisition state, the queued-read
tracker, the gains (set by init) and the last sample written to `magData`.
The source keeps `magData` values in `int16_t`; the model stores the
mathematical integer and the theorems carry the `int16_t` range condition
under which the C store is defined. -/
structure DriverState where
  state : AkState
  queued : QueuedRead
  magGain : Triple ℚ
  magData : Triple ℤ
deriving DecidableEq

/-- Result of one `ak8963Read` poll: the returned new-data flag, the
updated driver state, the transport commands issued, and how many times
the `CHECK_STATUS` arm of the switch executed during the invocation. -/
structure ReadResult where
  ret : Bool
  drv : DriverState
  cmds : List Cmd
  checkStatusRuns : ℕ
deriving DecidableEq

/-- Embeds the per-axis sample computation of `ak8963Read`:
`-(int16_t)(hi << 8 | lo) * gain`, the float product truncated by the
assignment to `int16_t`. -/
def decodeAxis (gain : ℚ) (lo hi : ℕ) : ℤ :=
  truncTowardZero ((-(toInt16 ((hi <<< 8) ||| lo)) : ℤ) * gain)

/-- Embeds the `CHECK_STATUS` arm of `ak8963Read`: queue a status read,
advance the state (the start-read result is discarded), return false. -/
def ak8963ReadCheckStatus (s : DriverState) (now : ℕ) : ReadResult :=
  let r := ak8963SensorStartRead s.queued now AK8963_MAG_I2C_ADDRESS
    AK8963_MAG_REG_STATUS1 1
  ⟨false, { s with state := .waitingForStatus, queued := r.q }, r.cmds, 1⟩

/-- Embeds lines 289-301 of `ak8963Read`: validate `status2`, decode and
store the sample, reset the state and re-arm a one-shot measurement. -/
def ak8963ReadTail (s : DriverState) (ack : Bool) (buf : List ℕ) :
    ReadResult :=
  let status2 := buf.getD 6 0
  if ack = false ∨ status2 &&& STATUS2_DATA_ERROR ≠ 0 ∨
      status2 &&& STATUS2_MAG_SENSOR_OVERFLOW ≠ 0 then
    ⟨false, s, [], 0⟩
  else
    let d : Triple ℤ :=
      ⟨decodeAxis s.magGain.x (buf.getD 0 0) (buf.getD 1 0),
       decodeAxis s.magGain.y (buf.getD 2 0) (buf.getD 3 0),
       decodeAxis s.magGain.z (buf.getD 4 0) (buf.getD 5 0)⟩
    let w := ak8963SensorWrite AK8963_MAG_I2C_ADDRESS AK8963_MAG_REG_CNTL1
      CNTL1_MODE_ONCE
    ⟨w.ok, { s with state := .checkStatus, magData := d }, w.cmds, 0⟩

/-- Embeds the `WAITING_FOR_STATUS` arm of `ak8963Read`.  `retry` is the
source's `retry` flag: when the completed status read is unacknowledged or
`DATA_READY` is unset, the state resets to `CHECK_STATUS` and, on the
first such failure, the `goto restart` re-runs the `CHECK_STATUS` arm
inline. -/
def ak8963ReadWaitingForStatus (s : DriverState) (now : ℕ)
    (busBytes : List ℕ) (busAck : Bool) (retry : Bool) : ReadResult :=
  let timeRemaining := ak8963SensorQueuedReadTimeRemaining s.queued now
  if timeRemaining ≠ 0 then
    ⟨false, s, [], 0⟩
  else
    let c := ak8963SensorCompleteRead s.queued now busBytes busAck
    let status := c.buf.getD 0 0
    if c.ok = false ∨ status &&& STATUS1_DATA_READY = 0 then
      let s2 := { s with state := .checkStatus, queued := c.q }
      if retry then
        let r := ak8963ReadCheckStatus s2 now
        ⟨r.ret, r.drv, c.cmds ++ r.cmds, r.checkStatusRuns⟩
      else
        ⟨false, s2, c.cmds, 0⟩
    else
      let r := ak8963SensorStartRead c.q now AK8963_MAG_I2C_ADDRESS
        AK8963_MAG_REG_HXL 7
      ⟨false, { s with state := .waitingForData, queued := r.q },
       c.cmds ++ r.cmds, 0⟩

/-- Embeds the `WAITING_FOR_DATA` arm of `ak8963Read`: once the settle
time has elapsed, fetch the 7 data bytes and fall through to the shared
validation/decode tail. -/
def ak8963ReadWaitingForData (s : DriverState) (now : ℕ) (busBytes : List ℕ)
    (busAck : Bool) : ReadResult :=
  let timeRemaining := ak8963SensorQueuedReadTimeRemaining s.queued now
  if timeRemaining ≠ 0 then
    ⟨false, s, [], 0⟩
  else
    let c := ak8963SensorCompleteRead s.queued now busBytes busAck
    let t := ak8963ReadTail { s with queued := c.q } c.ok c.buf
    ⟨t.ret, t.drv, c.cmds ++ t.cmds, t.checkStatusRuns⟩

/-- Embeds one poll of `ak8963Read` (SPI-passthrough variant).  `now` is
the value `micros()` returns during the poll, `busBytes`/`busAck` the
outcome of the at most one transport buffer read the poll performs.  The
source enters with `retry = true`; the single `goto restart` is flattened
into the direct call of the `CHECK_STATUS` arm it performs. -/
def ak8963Read (s : DriverState) (now : ℕ) (busBytes : List ℕ)
    (busAck : Bool) : ReadResult :=
  match s.state with
  | .checkStatus => ak8963ReadCheckStatus s now
  | .waitingForStatus => ak8963ReadWaitingForStatus s now busBytes busAck true
  | .waitingForData => ak8963ReadWaitingForData s now busBytes busAck

def VTX_STRING_BAND_COUNT : ℕ := 2
def VTX_STRING_CHAN_COUNT : ℕ := 8

/-- The `vtx58frequencyTable` of the VTX string file: RaceBand, then
LowRaceBand. -/
def vtx58frequencyTable : List (List ℕ) :=
  [[5658, 5695, 5732, 5769, 5806, 5843, 5880, 5917],
   [5362, 5399, 5436, 5473, 5510, 5547, 5584, 5621]]

/-- Entry `vtx58frequencyTable[band][channel]` (0-based). -/
def vtx58TableAt (band channel : ℕ) : ℕ :=
  (vtx58frequencyTable.getD band []).getD channel 0

/-- Embeds `vtx58_Freq2Bandchan`: search bands in reverse order, channels
in ascending order, return the 1-based pair on the first hit, else
`(false, 0, 0)` through the output pointers. -/
def vtx58_Freq2Bandchan (freq : ℕ) : Bool × ℕ × ℕ :=
  match (List.range VTX_STRING_BAND_COUNT).reverse.findSome? (fun band =>
      (List.range VTX_STRING_CHAN_COUNT).findSome? (fun channel =>
        if vtx58TableAt band channel = freq then some (band + 1, channel + 1)
        else none)) with
  | some (b, c) => (true, b, c)
  | none => (false, 0, 0)

/-- Embeds `vtx58_Bandchan2Freq`: table lookup for 1-based band/channel in
range, 0 otherwise. -/
def vtx58_Bandchan2Freq (band channel : ℕ) : ℕ :=
  if 0 < band ∧ band ≤ VTX_STRING_BAND_COUNT ∧ 0 < channel ∧
      channel ≤ VTX_STRING_CHAN_COUNT then
    vtx58TableAt (band - 1) (channel - 1)
  else 0

/-- Sample formula as the specification words it: the little-endian signed
16-bit value formed from the register pair, negated, multiplied by the
axis gain, stored as a signed 16-bit integer. -/
def specSampleAxis (gain : ℚ) (lo hi : ℕ) : ℤ :=
  truncTowardZero ((-(toInt16 (lo + 256 * hi)) : ℤ) * gain)

/-- Gain formula as the specification words it:
`gain = (((trim - 128) / 256) + 1) * 30` with `trim` read as a signed
8-bit value. -/
def specGainOfTrim (trim : ℕ) : ℚ :=
  (((toInt8 trim : ℚ) - 128) / 256 + 1) * 30

/-- Time remaining as the specification words it:
`max(0, SETTLE_DELAY - (now - issuedAt))` when pending, else 0. -/
def specTimeRemaining (q : QueuedRead) (now : ℕ) : ℕ :=
  if q.waiting then (max 0 (8000 - ((now : ℤ) - q.readStartedAt))).toNat
  else 0

theorem shiftLeft_lor_byte (b0 b1 : ℕ) (h : b0 < 256) :
    (b1 <<< 8) ||| b0 = b0 + 256 * b1 := by
  rw [Nat.shiftLeft_eq]
  have h1 : (2 : ℕ) ^ 8 * b1 + b0 = 2 ^ 8 * b1 ||| b0 :=
    Nat.mul_add_lt_is_or (by omega) b1
  have h2 : b1 * 2 ^ 8 = 2 ^ 8 * b1 := Nat.mul_comm _ _
  rw [h2, ← h1]
  omega

theorem decodeAxis_eq_spec (gain : ℚ) (lo hi : ℕ) (h : lo < 256) :
    decodeAxis gain lo hi = specSampleAxis gain lo hi := by
  unfold decodeAxis specSampleAxis
  rw [shiftLeft_lor_byte lo hi h]

/-- Evaluation of the queued-read timer on a well-behaved clock: when the
stored timestamp is at most `now`, less than `2^31` in the past, and `now`
has not yet wrapped past `2^32`, the source's wrapping arithmetic computes
the specification's `max(0, 8000 - elapsed)`. -/
theorem timeRemaining_eval (q : QueuedRead) (now : ℕ) (hw : q.waiting = true)
    (h1 : q.readStartedAt ≤ now) (h2 : now < q.readStartedAt + 2 ^ 31)
    (h3 : now < 2 ^ 32) :
    ak8963SensorQueuedReadTimeRemaining q now =
      ((8000 : ℤ) - (now - q.readStartedAt : ℕ)).toNat := by
  unfold ak8963SensorQueuedReadTimeRemaining
  rw [hw]
  simp only [Bool.true_eq_false, if_false]
  have ha : q.readStartedAt < 2 ^ 32 := lt_of_le_of_lt h1 h3
  have hu : u32sub now q.readStartedAt = now - q.readStartedAt := by
    unfold u32sub
    omega
  rw [hu]
  have hd : now - q.readStartedAt < 2 ^ 31 := by omega
  have ht : toInt32 (now - q.readStartedAt) = ((now - q.readStartedAt : ℕ) : ℤ) := by
    unfold toInt32
    have : (now - q.readStartedAt) % 4294967296 = now - q.readStartedAt := by omega
    rw [this]
    have : (now - q.readStartedAt : ℕ) < 2147483648 := by omega
    simp [this]
  rw [ht]
  split
  · omega
  · omega

/-- C3: while a read is pending, `ak8963SensorStartRead` returns false,
leaves the tracker (waiting, len, readStartedAt) unchanged, and issues no
transport commands. -/
theorem c3_startRead_pending_no_side_effect (q : QueuedRead)
    (now addr reg len : ℕ) (h : q.waiting = true) :
    ak8963SensorStartRead q now addr reg len = ⟨false, q, []⟩ := by
  unfold ak8963SensorStartRead
  rw [h]
  simp

theorem c3_startRead_pending_witness :
    (⟨true, 1, 42⟩ : QueuedRead).waiting = true ∧
      ak8963SensorStartRead ⟨true, 1, 42⟩ 100 AK8963_MAG_I2C_ADDRESS
        AK8963_MAG_REG_HXL 7 = ⟨false, ⟨true, 1, 42⟩, []⟩ :=
  ⟨rfl, c3_startRead_pending_no_side_effect ⟨true, 1, 42⟩ 100
    AK8963_MAG_I2C_ADDRESS AK8963_MAG_REG_HXL 7 rfl⟩

/-- C5: the queued-read timer returns 0 when no read is pending; when one
is pending it computes `max(0, 8000 - (now - issuedAt))` (on a monotonic
clock that has advanced less than `2^31` microseconds since issue and not
wrapped); it is non-increasing between two calls at increasing clock
values; and it is exactly 0 at or after `issuedAt + 8000`. -/
theorem c5_timeRemaining_spec (q : QueuedRead) (now now2 : ℕ) :
    (q.waiting = false → ak8963SensorQueuedReadTimeRemaining q now = 0) ∧
    (q.waiting = true → q.readStartedAt ≤ now →
      now < q.readStartedAt + 2 ^ 31 → now < 2 ^ 32 →
      ak8963SensorQueuedReadTimeRemaining q now = specTimeRemaining q now) ∧
    (q.waiting = true → q.readStartedAt ≤ now → now ≤ now2 →
      now2 < q.readStartedAt + 2 ^ 31 → now2 < 2 ^ 32 →
      ak8963SensorQueuedReadTimeRemaining q now2 ≤
        ak8963SensorQueuedReadTimeRemaining q now) ∧
    (q.waiting = true → q.readStartedAt + 8000 ≤ now →
      now < q.readStartedAt + 2 ^ 31 → now < 2 ^ 32 →
      ak8963SensorQueuedReadTimeRemaining q now = 0) := by
  refine ⟨?_, ?_, ?_, ?_⟩
  · intro hw
    unfold ak8963SensorQueuedReadTimeRemaining
    rw [hw]
    simp
  · intro hw h1 h2 h3
    rw [timeRemaining_eval q now hw h1 h2 h3]
    unfold specTimeRemaining
    rw [hw]
    simp only [if_true]
    omega
  · intro hw h1 h2 h3 h4
    rw [timeRemaining_eval q now hw h1 (by omega) (by omega),
      timeRemaining_eval q now2 hw (by omega) h3 h4]
    omega
  · intro hw h1 h2 h3
    rw [timeRemaining_eval q now hw (by omega) h2 h3]
    omega

theorem c5_timeRemaining_witness :
    ((⟨false, 0, 0⟩ : QueuedRead).waiting = false →
      ak8963SensorQueuedReadTimeRemaining ⟨false, 0, 0⟩ 500 = 0) ∧
    (ak8963SensorQueuedReadTimeRemaining ⟨true, 1, 1000⟩ 4000 =
      specTimeRemaining ⟨true, 1, 1000⟩ 4000) ∧
    (ak8963SensorQueuedReadTimeRemaining ⟨true, 1, 1000⟩ 6000 ≤
      ak8963SensorQueuedReadTimeRemaining ⟨true, 1, 1000⟩ 4000) ∧
    (ak8963SensorQueuedReadTimeRemaining ⟨true, 1, 1000⟩ 9000 = 0) := by
  refine ⟨fun h => (c5_timeRemaining_spec ⟨false, 0, 0⟩ 500 500).1 h,
    (c5_timeRemaining_spec ⟨true, 1, 1000⟩ 4000 4000).2.1 rfl (by decide)
      (by decide) (by decide),
    (c5_timeRemaining_spec ⟨true, 1, 1000⟩ 4000 6000).2.2.1 rfl (by decide)
      (by decide) (by decide) (by decide),
    (c5_timeRemaining_spec ⟨true, 1, 1000⟩ 9000 9000).2.2.2 rfl (by decide)
      (by decide) (by decide)⟩

/-- C4: `ak8963SensorCompleteRead` blocks for exactly the remaining settle
time when there is one (and on a monotonic un-wrapped clock that remaining
time never exceeds the 8000 microsecond settle interval), clears the
pending flag, and performs the transport buffer read of the recorded
length, returning those bytes. -/
theorem c4_completeRead_spec (q : QueuedRead) (now : ℕ) (busBytes : List ℕ)
    (busAck : Bool) :
    (0 < ak8963SensorQueuedReadTimeRemaining q now →
      (ak8963SensorCompleteRead q now busBytes busAck).cmds =
        [Cmd.delayUs (ak8963SensorQueuedReadTimeRemaining q now),
         Cmd.bufRead .extSensData q.len]) ∧
    (ak8963SensorQueuedReadTimeRemaining q now = 0 →
      (ak8963SensorCompleteRead q now busBytes busAck).cmds =
        [Cmd.bufRead .extSensData q.len]) ∧
    (ak8963SensorCompleteRead q now busBytes busAck).q =
      { q with waiting := false } ∧
    (ak8963SensorCompleteRead q now busBytes busAck).buf =
      busBytes.take q.len ∧
    (q.readStartedAt ≤ now → now < q.readStartedAt + 2 ^ 31 → now < 2 ^ 32 →
      ak8963SensorQueuedReadTimeRemaining q now ≤ 8000) := by
  refine ⟨?_, ?_, rfl, rfl, ?_⟩
  · intro h
    unfold ak8963SensorCompleteRead
    simp only [h, if_pos]
    rfl
  · intro h
    unfold ak8963SensorCompleteRead
    simp [h]
  · intro h1 h2 h3
    cases hw : q.waiting with
    | false =>
        unfold ak8963SensorQueuedReadTimeRemaining
        rw [hw]
        simp
    | true =>
        rw [timeRemaining_eval q now hw h1 h2 h3]
        omega

theorem c4_completeRead_witness :
    (0 < ak8963SensorQueuedReadTimeRemaining ⟨true, 1, 1000⟩ 4000 →
      (ak8963SensorCompleteRead ⟨true, 1, 1000⟩ 4000 [7, 8] true).cmds =
        [Cmd.delayUs (ak8963SensorQueuedReadTimeRemaining ⟨true, 1, 1000⟩ 4000),
         Cmd.bufRead .extSensData 1]) ∧
      ak8963SensorQueuedReadTimeRemaining ⟨true, 1, 1000⟩ 4000 ≤ 8000 :=
  ⟨(c4_completeRead_spec ⟨true, 1, 1000⟩ 4000 [7, 8] true).1,
   (c4_completeRead_spec ⟨true, 1, 1000⟩ 4000 [7, 8] true).2.2.2.2
     (by decide) (by decide) (by decide)⟩

/-- C8: `ak8963Init` returns true for every outcome of its transport
reads and writes; the acknowledgments play no part in the result (in the
SPI-passthrough path the writes cannot even report failure). -/
theorem c8_init_always_reports_success (calBytes st1Bytes st2Bytes : List ℕ)
    (calAck st1Ack st2Ack : Bool) :
    (ak8963Init calBytes st1Bytes st2Bytes calAck st1Ack st2Ack).ok = true :=
  rfl

/-- C10: for bands 1..2 and channels 1..8, `vtx58_Freq2Bandchan` inverts
`vtx58_Bandchan2Freq` (valid since the sixteen table frequencies are
pairwise distinct); out-of-range band/channel pairs map to frequency 0;
and a frequency appearing nowhere in the table yields `(false, 0, 0)`. -/
theorem c10_vtx58_roundtrip (band channel : ℕ) (freq : ℕ) :
    (1 ≤ band → band ≤ 2 → 1 ≤ channel → channel ≤ 8 →
      vtx58_Freq2Bandchan (vtx58_Bandchan2Freq band channel) =
        (true, band, channel)) ∧
    (¬(1 ≤ band ∧ band ≤ 2 ∧ 1 ≤ channel ∧ channel ≤ 8) →
      vtx58_Bandchan2Freq band channel = 0) ∧
    ((∀ b < 2, ∀ c < 8, vtx58TableAt b c ≠ freq) →
      vtx58_Freq2Bandchan freq = (false, 0, 0)) := by
  refine ⟨?_, ?_, ?_⟩
  · intro hb1 hb2 hc1 hc2
    interval_cases band <;> interval_cases channel <;> decide
  · intro h
    unfold vtx58_Bandchan2Freq
    rw [if_neg]
    unfold VTX_STRING_BAND_COUNT VTX_STRING_CHAN_COUNT
    omega
  · intro h
    unfold vtx58_Freq2Bandchan
    have hn : ((List.range VTX_STRING_BAND_COUNT).reverse.findSome?
        (fun b => (List.range VTX_STRING_CHAN_COUNT).findSome?
          (fun c => if vtx58TableAt b c = freq then some (b + 1, c + 1)
            else none))) = none := by
      rw [List.findSome?_eq_none_iff]
      intro b hb
      rw [List.findSome?_eq_none_iff]
      intro c hc
      rw [if_neg]
      exact h b (List.mem_range.mp (List.mem_reverse.mp hb)) c
        (List.mem_range.mp hc)
    rw [hn]

theorem c10_vtx58_roundtrip_witness :
    vtx58_Freq2Bandchan (vtx58_Bandchan2Freq 2 5) = (true, 2, 5) ∧
      vtx58_Bandchan2Freq 3 1 = 0 ∧
      vtx58_Freq2Bandchan 5800 = (false, 0, 0) :=
  ⟨(c10_vtx58_roundtrip 2 5 0).1 (by decide) (by decide) (by decide)
      (by decide),
   (c10_vtx58_roundtrip 3 1 0).2.1 (by decide),
   (c10_vtx58_roundtrip 0 0 5800).2.2 (by decide)⟩

theorem ak8963Read_checkStatus_arm (s : DriverState) (now : ℕ)
    (bb : List ℕ) (ba : Bool) (h : s.state = .checkStatus) :
    ak8963Read s now bb ba = ak8963ReadCheckStatus s now := by
  unfold ak8963Read
  rw [h]

theorem ak8963Read_waitingForStatus_arm (s : DriverState) (now : ℕ)
    (bb : List ℕ) (ba : Bool) (h : s.state = .waitingForStatus) :
    ak8963Read s now bb ba = ak8963ReadWaitingForStatus s now bb ba true := by
  unfold ak8963Read
  rw [h]

theorem ak8963Read_waitingForData_arm (s : DriverState) (now : ℕ)
    (bb : List ℕ) (ba : Bool) (h : s.state = .waitingForData) :
    ak8963Read s now bb ba = ak8963ReadWaitingForData s now bb ba := by
  unfold ak8963Read
  rw [h]

theorem read_data_clean (s : DriverState) (now : ℕ) (buf : List ℕ)
    (ba : Bool) (hstate : s.state = .waitingForData)
    (htr : ak8963SensorQueuedReadTimeRemaining s.queued now = 0)
    (hql : s.queued.len = 7) (hlen : buf.length = 7)
    (hs2e : buf.getD 6 0 &&& STATUS2_DATA_ERROR = 0)
    (hs2o : buf.getD 6 0 &&& STATUS2_MAG_SENSOR_OVERFLOW = 0) :
    ak8963Read s now buf ba =
      ⟨true,
       { s with
           state := .checkStatus,
           queued := { s.queued with waiting := false },
           magData :=
             ⟨decodeAxis s.magGain.x (buf.getD 0 0) (buf.getD 1 0),
              decodeAxis s.magGain.y (buf.getD 2 0) (buf.getD 3 0),
              decodeAxis s.magGain.z (buf.getD 4 0) (buf.getD 5 0)⟩ },
       [Cmd.bufRead .extSensData 7] ++
         (ak8963SensorWrite AK8963_MAG_I2C_ADDRESS AK8963_MAG_REG_CNTL1
           CNTL1_MODE_ONCE).cmds, 0⟩ := by
  have htake : buf.take s.queued.len = buf := by
    rw [hql]
    exact List.take_of_length_le (by omega)
  rw [ak8963Read_waitingForData_arm s now buf ba hstate]
  unfold ak8963ReadWaitingForData
  simp only [htr, ne_eq, not_true_eq_false, if_false, reduceIte,
    ak8963SensorCompleteRead, lt_irrefl, List.nil_append, htake]
  unfold ak8963ReadTail
  simp only [htake, hs2e, hs2o, ne_eq, not_true_eq_false, not_false_eq_true,
    Bool.true_eq_false, false_or, or_self, if_false, reduceIte, hql]
  rfl

theorem getD_zero_take_one (bb : List ℕ) :
    (bb.take 1).getD 0 0 = bb.getD 0 0 := by
  cases bb <;> rfl

theorem read_data_dirty (s : DriverState) (now : ℕ) (buf : List ℕ)
    (ba : Bool) (hstate : s.state = .waitingForData)
    (htr : ak8963SensorQueuedReadTimeRemaining s.queued now = 0)
    (hql : s.queued.len = 7) (hlen : buf.length = 7)
    (hbad : buf.getD 6 0 &&& STATUS2_DATA_ERROR ≠ 0 ∨
      buf.getD 6 0 &&& STATUS2_MAG_SENSOR_OVERFLOW ≠ 0) :
    ak8963Read s now buf ba =
      ⟨false, { s with queued := { s.queued with waiting := false } },
       [Cmd.bufRead .extSensData 7], 0⟩ := by
  have htake : buf.take s.queued.len = buf := by
    rw [hql]
    exact List.take_of_length_le (by omega)
  rw [ak8963Read_waitingForData_arm s now buf ba hstate]
  unfold ak8963ReadWaitingForData
  simp only [htr, ne_eq, not_true_eq_false, if_false, reduceIte,
    ak8963SensorCompleteRead, lt_irrefl, List.nil_append, htake]
  unfold ak8963ReadTail
  rcases hbad with h | h
  · simp only [htake, h, ne_eq, not_false_eq_true, true_or, or_true,
      if_true, reduceIte, hql, List.append_nil]
  · simp only [htake, h, ne_eq, not_false_eq_true, true_or, or_true,
      if_true, reduceIte, hql, List.append_nil]

theorem read_status_ready (s : DriverState) (now : ℕ) (bb : List ℕ)
    (ba : Bool) (hstate : s.state = .waitingForStatus)
    (htr : ak8963SensorQueuedReadTimeRemaining s.queued now = 0)
    (hql : s.queued.len = 1)
    (hready : bb.getD 0 0 &&& STATUS1_DATA_READY ≠ 0) :
    (ak8963Read s now bb ba).ret = false ∧
      (ak8963Read s now bb ba).drv =
        { s with
            state := .waitingForData,
            queued := ⟨true, 7, now % 4294967296⟩ } := by
  rw [ak8963Read_waitingForStatus_arm s now bb ba hstate]
  unfold ak8963ReadWaitingForStatus
  simp only [htr, ne_eq, not_true_eq_false, if_false, reduceIte,
    ak8963SensorCompleteRead, lt_irrefl, List.nil_append, hql,
    getD_zero_take_one, hready, Bool.true_eq_false, false_or,
    not_false_eq_true, ak8963SensorStartRead]
  simp

theorem read_status_notready (s : DriverState) (now : ℕ) (bb : List ℕ)
    (ba : Bool) (hstate : s.state = .waitingForStatus)
    (htr : ak8963SensorQueuedReadTimeRemaining s.queued now = 0)
    (hql : s.queued.len = 1)
    (hnr : bb.getD 0 0 &&& STATUS1_DATA_READY = 0) :
    (ak8963Read s now bb ba).ret = false ∧
      (ak8963Read s now bb ba).checkStatusRuns = 1 ∧
      (ak8963Read s now bb ba).drv =
        { s with
            state := .waitingForStatus,
            queued := ⟨true, 1, now % 4294967296⟩ } := by
  rw [ak8963Read_waitingForStatus_arm s now bb ba hstate]
  unfold ak8963ReadWaitingForStatus
  simp only [htr, ne_eq, not_true_eq_false, if_false, reduceIte,
    ak8963SensorCompleteRead, lt_irrefl, List.nil_append, hql,
    getD_zero_take_one, hnr, Bool.true_eq_false, false_or, or_true,
    if_true, ak8963ReadCheckStatus, ak8963SensorStartRead]
  simp

theorem checkStatusRuns_le_two (s : DriverState) (now : ℕ) (bb : List ℕ)
    (ba : Bool) : (ak8963Read s now bb ba).checkStatusRuns ≤ 2 := by
  unfold ak8963Read
  cases hs : s.state
  · unfold ak8963ReadCheckStatus
    simp
  · unfold ak8963ReadWaitingForStatus ak8963ReadCheckStatus
    dsimp only
    split_ifs <;> simp
  · unfold ak8963ReadWaitingForData ak8963ReadTail
    dsimp only
    split_ifs <;> simp

theorem getD_lt_of_mem_bound (buf : List ℕ) (i : ℕ) (hlen : i < buf.length)
    (hbytes : ∀ b ∈ buf, b < 256) : buf.getD i 0 < 256 := by
  have hm : buf.getD i 0 ∈ buf := by
    rw [List.getD_eq_getElem?_getD, List.getElem?_eq_getElem hlen]
    exact List.getElem_mem hlen
  exact hbytes _ hm

/-- C1: across the status poll and the data poll of the SPI-passthrough
state machine, a 7-byte raw buffer read under a status byte with the
DATA_READY bit set, an acknowledged read, and no error/overflow bits in
status2, yields for each axis the negation of the little-endian signed
16-bit register pair multiplied by that axis's gain, and the data poll
reports new data.  The three range hypotheses state that each product
fits in `int16_t`, which is the condition for the C store to `magData`
to be defined. -/
theorem c1_read_decodes_sample (s : DriverState) (now1 now2 : ℕ)
    (statusByte : ℕ) (ba1 ba2 : Bool) (buf : List ℕ)
    (hstate : s.state = .waitingForStatus) (hql : s.queued.len = 1)
    (htr1 : ak8963SensorQueuedReadTimeRemaining s.queued now1 = 0)
    (hready : statusByte &&& STATUS1_DATA_READY ≠ 0)
    (htr2 : ak8963SensorQueuedReadTimeRemaining ⟨true, 7, now1 % 4294967296⟩
      now2 = 0)
    (hlen : buf.length = 7) (hbytes : ∀ b ∈ buf, b < 256)
    (hs2e : buf.getD 6 0 &&& STATUS2_DATA_ERROR = 0)
    (hs2o : buf.getD 6 0 &&& STATUS2_MAG_SENSOR_OVERFLOW = 0)
    (_hx : (specSampleAxis s.magGain.x (buf.getD 0 0) (buf.getD 1 0)).natAbs
      ≤ 32767)
    (_hy : (specSampleAxis s.magGain.y (buf.getD 2 0) (buf.getD 3 0)).natAbs
      ≤ 32767)
    (_hz : (specSampleAxis s.magGain.z (buf.getD 4 0) (buf.getD 5 0)).natAbs
      ≤ 32767) :
    (ak8963Read s now1 [statusByte] ba1).ret = false ∧
      (ak8963Read (ak8963Read s now1 [statusByte] ba1).drv now2 buf ba2).ret
        = true ∧
      (ak8963Read (ak8963Read s now1 [statusByte] ba1).drv now2 buf
        ba2).drv.state = .checkStatus ∧
      (ak8963Read (ak8963Read s now1 [statusByte] ba1).drv now2 buf
        ba2).drv.magData =
        ⟨specSampleAxis s.magGain.x (buf.getD 0 0) (buf.getD 1 0),
         specSampleAxis s.magGain.y (buf.getD 2 0) (buf.getD 3 0),
         specSampleAxis s.magGain.z (buf.getD 4 0) (buf.getD 5 0)⟩ := by
  have h1 := read_status_ready s now1 [statusByte] ba1 hstate htr1 hql hready
  obtain ⟨h1r, h1d⟩ := h1
  have h2 := read_data_clean (ak8963Read s now1 [statusByte] ba1).drv now2
    buf ba2 (by rw [h1d]) (by rw [h1d]; exact htr2) (by rw [h1d]) hlen
    hs2e hs2o
  refine ⟨h1r, by rw [h2], by rw [h2], ?_⟩
  rw [h2]
  have hg : (ak8963Read s now1 [statusByte] ba1).drv.magGain = s.magGain := by
    rw [h1d]
  show Triple.mk _ _ _ = Triple.mk _ _ _
  rw [hg]
  rw [decodeAxis_eq_spec _ _ _ (getD_lt_of_mem_bound buf 0 (by omega) hbytes),
    decodeAxis_eq_spec _ _ _ (getD_lt_of_mem_bound buf 2 (by omega) hbytes),
    decodeAxis_eq_spec _ _ _ (getD_lt_of_mem_bound buf 4 (by omega) hbytes)]

theorem c1_read_decodes_sample_witness :
    (ak8963Read ⟨.waitingForStatus, ⟨true, 1, 0⟩, ⟨30, 30, 30⟩, ⟨0, 0, 0⟩⟩
      8000 [1] true).ret = false ∧
    (ak8963Read (ak8963Read ⟨.waitingForStatus, ⟨true, 1, 0⟩, ⟨30, 30, 30⟩,
      ⟨0, 0, 0⟩⟩ 8000 [1] true).drv 16000 [16, 0, 32, 0, 48, 0, 0]
      true).ret = true ∧
    (ak8963Read (ak8963Read ⟨.waitingForStatus, ⟨true, 1, 0⟩, ⟨30, 30, 30⟩,
      ⟨0, 0, 0⟩⟩ 8000 [1] true).drv 16000 [16, 0, 32, 0, 48, 0, 0]
      true).drv.magData = ⟨-480, -960, -1440⟩ := by
  have h := c1_read_decodes_sample
    ⟨.waitingForStatus, ⟨true, 1, 0⟩, ⟨30, 30, 30⟩, ⟨0, 0, 0⟩⟩ 8000 16000
    1 true true [16, 0, 32, 0, 48, 0, 0] rfl rfl (by decide) (by decide)
    (by decide) (by decide) (by decide) (by decide) (by decide)
    (by norm_num [specSampleAxis, toInt16, truncTowardZero])
    (by norm_num [specSampleAxis, toInt16, truncTowardZero])
    (by norm_num [specSampleAxis, toInt16, truncTowardZero])
  refine ⟨h.1, h.2.1, h.2.2.2.trans ?_⟩
  norm_num [specSampleAxis, toInt16, truncTowardZero]

/-- C6: in `WAITING_FOR_STATUS`, when the completed status read has the
DATA_READY bit unset (the acknowledgment cannot be false in this path),
the poll resets to `CHECK_STATUS` and re-runs the `CHECK_STATUS` arm
exactly once inline — queueing a fresh status read and advancing back to
`WAITING_FOR_STATUS` — before returning no data; over every possible
poll the `CHECK_STATUS` arm executes at most twice, and every poll is a
terminating total function by construction. -/
theorem c6_status_failure_single_inline_retry (s : DriverState) (now : ℕ)
    (bb : List ℕ) (ba : Bool) (hstate : s.state = .waitingForStatus)
    (htr : ak8963SensorQueuedReadTimeRemaining s.queued now = 0)
    (hql : s.queued.len = 1)
    (hnr : bb.getD 0 0 &&& STATUS1_DATA_READY = 0) :
    (ak8963Read s now bb ba).ret = false ∧
      (ak8963Read s now bb ba).checkStatusRuns = 1 ∧
      (ak8963Read s now bb ba).drv.state = .waitingForStatus ∧
      (ak8963Read s now bb ba).drv.queued = ⟨true, 1, now % 4294967296⟩ ∧
      (∀ s' n' b' a', (ak8963Read s' n' b' a').checkStatusRuns ≤ 2) := by
  have h := read_status_notready s now bb ba hstate htr hql hnr
  exact ⟨h.1, h.2.1, by rw [h.2.2], by rw [h.2.2],
    fun s' n' b' a' => checkStatusRuns_le_two s' n' b' a'⟩

theorem c6_status_failure_single_inline_retry_witness :
    (ak8963Read ⟨.waitingForStatus, ⟨true, 1, 0⟩, ⟨30, 30, 30⟩, ⟨0, 0, 0⟩⟩
      8000 [0] true).ret = false ∧
    (ak8963Read ⟨.waitingForStatus, ⟨true, 1, 0⟩, ⟨30, 30, 30⟩, ⟨0, 0, 0⟩⟩
      8000 [0] true).checkStatusRuns = 1 ∧
    (ak8963Read ⟨.waitingForStatus, ⟨true, 1, 0⟩, ⟨30, 30, 30⟩, ⟨0, 0, 0⟩⟩
      8000 [0] true).drv.state = .waitingForStatus := by
  have h := c6_status_failure_single_inline_retry
    ⟨.waitingForStatus, ⟨true, 1, 0⟩, ⟨30, 30, 30⟩, ⟨0, 0, 0⟩⟩ 8000 [0] true
    rfl (by decide) rfl (by decide)
  exact ⟨h.1, h.2.1, h.2.2.1⟩

/-- C9: `ak8963SensorCompleteRead` returns true for every input and every
transport outcome, so in the `WAITING_FOR_DATA` poll the result depends
only on the status2 bits: whatever the buffer read's acknowledgment, the
poll reports new data exactly when the status2 error and overflow masks
are clear — a transport nack during the data fetch can never be detected
or reported. -/
theorem c9_completeRead_ack_discarded (q : QueuedRead) (now : ℕ)
    (bb : List ℕ) (ba : Bool) (s : DriverState) (now2 : ℕ) (buf : List ℕ)
    (ba2 : Bool) :
    (ak8963SensorCompleteRead q now bb ba).ok = true ∧
      (s.state = .waitingForData →
        ak8963SensorQueuedReadTimeRemaining s.queued now2 = 0 →
        s.queued.len = 7 → buf.length = 7 →
        ((ak8963Read s now2 buf ba2).ret = true ↔
          (buf.getD 6 0 &&& STATUS2_DATA_ERROR = 0 ∧
            buf.getD 6 0 &&& STATUS2_MAG_SENSOR_OVERFLOW = 0))) := by
  refine ⟨rfl, fun hstate htr hql hlen => ?_⟩
  by_cases h2e : buf.getD 6 0 &&& STATUS2_DATA_ERROR = 0
  · by_cases h2o : buf.getD 6 0 &&& STATUS2_MAG_SENSOR_OVERFLOW = 0
    · rw [read_data_clean s now2 buf ba2 hstate htr hql hlen h2e h2o]
      exact iff_of_true rfl ⟨h2e, h2o⟩
    · rw [read_data_dirty s now2 buf ba2 hstate htr hql hlen (Or.inr h2o)]
      exact iff_of_false (by simp) (fun hc => h2o hc.2)
  · rw [read_data_dirty s now2 buf ba2 hstate htr hql hlen (Or.inl h2e)]
    exact iff_of_false (by simp) (fun hc => h2e hc.1)

theorem c9_completeRead_ack_discarded_witness :
    (ak8963SensorCompleteRead ⟨true, 1, 0⟩ 8000 [1] false).ok = true ∧
      ((ak8963Read ⟨.waitingForData, ⟨true, 7, 0⟩, ⟨30, 30, 30⟩, ⟨0, 0, 0⟩⟩
        8000 [0, 0, 0, 0, 0, 0, 0] false).ret = true ↔
        ((0 : ℕ) &&& STATUS2_DATA_ERROR = 0 ∧
          (0 : ℕ) &&& STATUS2_MAG_SENSOR_OVERFLOW = 0)) := by
  have h := c9_completeRead_ack_discarded ⟨true, 1, 0⟩ 8000 [1] false
    ⟨.waitingForData, ⟨true, 7, 0⟩, ⟨30, 30, 30⟩, ⟨0, 0, 0⟩⟩ 8000
    [0, 0, 0, 0, 0, 0, 0] false
  exact ⟨h.1, h.2 rfl (by decide) rfl (by decide)⟩

/-- C2 counterexample (code bug): a `WAITING_FOR_DATA` poll whose 7-byte
buffer carries status2 = 0x02 (data-error bit) returns no data but leaves
the acquisition state in `WAITING_FOR_DATA` — not `CHECK_STATUS` — and
issues no transport command at all beyond the buffer fetch: in particular
no CNTL1 measure-once re-arm write (no `SLV0_DO` write) is issued, where
the claim and the specification require exactly one re-arm and a reset to
`CHECK_STATUS`. -/
theorem c2_sensor_fault_skips_reset_and_rearm :
    ak8963Read ⟨.waitingForData, ⟨true, 7, 0⟩, ⟨30, 30, 30⟩, ⟨0, 0, 0⟩⟩ 8000
        [0, 0, 0, 0, 0, 0, 2] true =
      ⟨false, ⟨.waitingForData, ⟨false, 7, 0⟩, ⟨30, 30, 30⟩, ⟨0, 0, 0⟩⟩,
       [Cmd.bufRead .extSensData 7], 0⟩ ∧
    (ak8963Read ⟨.waitingForData, ⟨true, 7, 0⟩, ⟨30, 30, 30⟩, ⟨0, 0, 0⟩⟩ 8000
      [0, 0, 0, 0, 0, 0, 2] true).cmds.count
        (Cmd.spiWrite .slv0DO CNTL1_MODE_ONCE) = 0 ∧
    (ak8963Read ⟨.waitingForData, ⟨true, 7, 0⟩, ⟨30, 30, 30⟩, ⟨0, 0, 0⟩⟩ 8000
      [0, 0, 0, 0, 0, 0, 2] true).drv.state ≠ .checkStatus := by
  decide

/-- C7: `ak8963Init` computes each per-axis gain from the corresponding
trim byte read as a signed 8-bit value by
`gain = (((trim - 128) / 256) + 1) * 30` (equivalently
`(trim + 128) * 30 / 256`), and no poll of `ak8963Read` ever modifies the
gains afterwards. -/
theorem c7_gain_formula_and_immutability (calBytes st1Bytes st2Bytes : List ℕ)
    (calAck st1Ack st2Ack : Bool) (s : DriverState) (now : ℕ) (bb : List ℕ)
    (ba : Bool) (trim : ℕ) (hcal : calBytes.length = 3) :
    ((ak8963Init calBytes st1Bytes st2Bytes calAck st1Ack st2Ack).magGain =
      ⟨specGainOfTrim (calBytes.getD 0 0), specGainOfTrim (calBytes.getD 1 0),
       specGainOfTrim (calBytes.getD 2 0)⟩) ∧
    (ak8963GainOfTrim trim = ((toInt8 trim + 128) * 30 : ℚ) / 256) ∧
    ((ak8963Read s now bb ba).drv.magGain = s.magGain) := by
  refine ⟨?_, ?_, ?_⟩
  · have htake : calBytes.take 3 = calBytes :=
      List.take_of_length_le (by omega)
    unfold ak8963Init ak8963SensorRead
    simp only [htake]
    rfl
  · unfold ak8963GainOfTrim
    field_simp
    ring
  · unfold ak8963Read
    cases hs : s.state
    · unfold ak8963ReadCheckStatus
      simp
    · unfold ak8963ReadWaitingForStatus ak8963ReadCheckStatus
      dsimp only
      split_ifs <;> simp
    · unfold ak8963ReadWaitingForData ak8963ReadTail
      dsimp only
      split_ifs <;> simp

theorem c7_gain_formula_and_immutability_witness :
    (ak8963Init [200, 128, 0] [] [] true true true).magGain =
      ⟨specGainOfTrim 200, specGainOfTrim 128, specGainOfTrim 0⟩ ∧
      (ak8963Read ⟨.checkStatus, ⟨false, 0, 0⟩, ⟨30, 30, 30⟩, ⟨0, 0, 0⟩⟩ 0
        [] true).drv.magGain = ⟨30, 30, 30⟩ := by
  have h := c7_gain_formula_and_immutability [200, 128, 0] [] [] true true
    true ⟨.checkStatus, ⟨false, 0, 0⟩, ⟨30, 30, 30⟩, ⟨0, 0, 0⟩⟩ 0 [] true 0
    (by decide)
  exact ⟨h.1, h.2.2⟩
